import Mathlib

/-!
Verification of the NewsData / MudahPrompt Facebook autopost pipeline
(`src/main.py`) against its natural-language specification.

The embedding models the pure control flow of the program; every external
effect (the Gemini translation service, HTTP downloads, the Facebook Graph
API, the clock) is supplied as an explicit oracle (`ItemEnv`, attempt-outcome
lists, boolean publish results), and the observable calls the program makes
(translation, downloads, publishes, file deletions) are recorded as an
explicit event trace.
-/

namespace FBAutopost

/-! ## Data model: tweets and ledger entries (main.py lines 261-267, 351-360) -/

/-- A normalized content item as produced by `fetch_tweets_rapidapi`
(main.py lines 261-267): id, raw text, photo URLs, optional video URL,
canonical tweet URL. -/
structure Tweet where
  id : String
  raw_text : String
  images : List String
  video : Option String
  tweet_url : String
deriving Repr, DecidableEq

/-- One ledger entry as appended to `results.json` by `fetch_and_post_tweets`
(main.py lines 351-360). -/
structure Entry where
  id : String
  tweet_url : String
  original_text : String
  translated_caption : String
  images : List String
  video : Option String
  fb_status : String
  date_posted : String
deriving Repr, DecidableEq

/-- `load_posted_ids` (main.py lines 24-30): the ids of all entries of the
readable ledger that carry a non-empty id.  (Membership in this list models
membership in the Python `set`.) -/
def load_posted_ids (entries : List Entry) : List String :=
  (entries.filter (fun e => e.id ≠ "")).map Entry.id

/-- `log_result` (main.py lines 32-40): read the existing ledger, write back
existing ++ new. -/
def log_result (existing new_entries : List Entry) : List Entry :=
  existing ++ new_entries

/-! ## Translator: `GeminiTranslator` (main.py lines 45-99) -/

/-- Python `str.strip()`: remove leading and trailing whitespace.
(Implemented over the character list so that it evaluates by kernel
reduction.) -/
def pyStrip (s : String) : String :=
  String.mk
    (((s.data.dropWhile Char.isWhitespace).reverse.dropWhile
        Char.isWhitespace).reverse)

/-- Outcome of one `generate_content` network attempt, as seen by
`translate_to_malay`: either the call raises, or it returns a response whose
best-effort text aggregate is `s` (`resp.text or ""`). -/
inductive AttemptOutcome where
  | raise
  | ret (s : String)
deriving Repr, DecidableEq

/-- Observable result of one `translate_to_malay` invocation: the returned
string, the number of network attempts actually made, and the list of
`time.sleep` delays performed (in seconds, exact rationals). -/
structure TranslateTrace where
  result : String
  attempts : Nat
  sleeps : List ℚ
deriving Repr, DecidableEq

/-- The retry loop of `translate_to_malay` (main.py lines 83-99): at attempt
index `i` with `fuel` attempts remaining, make the call; a raised error
sleeps `backoff ^ (i+1)` and retries, an empty (post-strip) response retries
immediately with no sleep, a non-empty response is returned at once; when
the attempts are exhausted the marker string `"Translation failed"` is
returned. -/
def translateGo (outcomes : List AttemptOutcome) (backoff : ℚ) :
    Nat → Nat → TranslateTrace
  | _, 0 => ⟨"Translation failed", 0, []⟩
  | i, fuel + 1 =>
    match outcomes.getD i AttemptOutcome.raise with
    | AttemptOutcome.ret s =>
      if pyStrip s ≠ "" then ⟨pyStrip s, 1, []⟩
      else
        let r := translateGo outcomes backoff (i + 1) fuel
        ⟨r.result, r.attempts + 1, r.sleeps⟩
    | AttemptOutcome.raise =>
      let r := translateGo outcomes backoff (i + 1) fuel
      ⟨r.result, r.attempts + 1, backoff ^ (i + 1) :: r.sleeps⟩

/-- `GeminiTranslator.translate_to_malay` (main.py lines 63-99) with the
default arguments `retries = 3`, `backoff = 1.5`: empty or whitespace-only
raw input returns `""` immediately with no network attempt; otherwise the
retry loop runs for at most 3 attempts. -/
def translate_to_malay (text : String) (outcomes : List AttemptOutcome) :
    TranslateTrace :=
  if pyStrip text = "" then ⟨"", 0, []⟩
  else translateGo outcomes (3 / 2 : ℚ) 0 3

/-- The string result of a `translate_to_malay` invocation. -/
def translateResult (text : String) (outcomes : List AttemptOutcome) : String :=
  (translate_to_malay text outcomes).result

/-! ### `GeminiTranslator._clean_text` (main.py lines 56-61)

`re.sub(r'@\w+|https?://\S+|http?://\S+', '', text)` followed by
`re.sub(r'\s+', ' ', text).strip()`, implemented character-by-character with
the same leftmost-first-alternative matching discipline as `re.sub`. -/

/-- Python `\w` on ASCII input: letters, digits, underscore. -/
def isWordChar (c : Char) : Bool := c.isAlphanum || c = '_'

/-- Try to consume the regex alternative `@\w+` at the head of the list,
returning the remainder on success. -/
def matchMention : List Char → Option (List Char)
  | '@' :: rest =>
    let p := rest.span isWordChar
    if p.1 = [] then none else some p.2
  | _ => none

/-- Try to consume `://\S+` at the head of the list. -/
def matchSchemeRest : List Char → Option (List Char)
  | ':' :: '/' :: '/' :: rest =>
    let p := rest.span (fun c => !c.isWhitespace)
    if p.1 = [] then none else some p.2
  | _ => none

/-- Consume the literal leading characters `lead` from `cs`, if present. -/
def dropLead : List Char → List Char → Option (List Char)
  | [], cs => some cs
  | _ :: _, [] => none
  | p :: ps, c :: cs => if p = c then dropLead ps cs else none

/-- The regex alternative `https?://\S+` at the head of the list. -/
def matchUrlHttps (cs : List Char) : Option (List Char) :=
  match dropLead ['h', 't', 't', 'p'] cs with
  | none => none
  | some rest =>
    match rest with
    | 's' :: rest2 => (matchSchemeRest rest2).orElse (fun _ => matchSchemeRest rest)
    | _ => matchSchemeRest rest

/-- The regex alternative `http?://\S+` at the head of the list. -/
def matchUrlHttp (cs : List Char) : Option (List Char) :=
  match dropLead ['h', 't', 't'] cs with
  | none => none
  | some rest =>
    match rest with
    | 'p' :: rest2 => (matchSchemeRest rest2).orElse (fun _ => matchSchemeRest rest)
    | _ => matchSchemeRest rest

/-- The three alternatives of the noise pattern, tried in order. -/
def matchNoise (cs : List Char) : Option (List Char) :=
  ((matchMention cs).orElse (fun _ => matchUrlHttps cs)).orElse
    (fun _ => matchUrlHttp cs)

/-- One left-to-right `re.sub(pattern, '', ...)` pass: at each position,
delete a match of the noise pattern if one starts here, else keep the
character.  Fuel is the length of the list; every match consumes at least
one character. -/
def stripNoiseGo : Nat → List Char → List Char
  | 0, cs => cs
  | _ + 1, [] => []
  | fuel + 1, c :: rest =>
    match matchNoise (c :: rest) with
    | some r => stripNoiseGo fuel r
    | none => c :: stripNoiseGo fuel rest

/-- Collapse every run of two or more spaces to a single space
(the input has already had each whitespace character mapped to a space). -/
def dedupSpaces : List Char → List Char
  | [] => []
  | [c] => [c]
  | c :: d :: rest =>
    if c = ' ' && d = ' ' then dedupSpaces (d :: rest)
    else c :: dedupSpaces (d :: rest)

/-- `GeminiTranslator._clean_text` (main.py lines 56-61): strip `@mentions`
and URLs, collapse whitespace runs to single spaces, strip the ends. -/
def clean_text (s : String) : String :=
  let noNoise := stripNoiseGo s.data.length s.data
  let collapsed := dedupSpaces (noNoise.map (fun c => if c.isWhitespace then ' ' else c))
  pyStrip (String.mk collapsed)

/-! ## Publisher: `post_photos_to_fb` (main.py lines 131-169) -/

/-- Outcome of one unpublished staging upload to `/photos`: non-200 status,
200 with a JSON body lacking an `id`, or 200 with media id `i`. -/
inductive UploadResult where
  | httpFail
  | okNoId
  | staged (i : String)
deriving Repr, DecidableEq

/-- One local photo file as `post_photos_to_fb` sees it: its path, whether
`os.path.exists(path)` holds, and the outcome of its staging upload were it
attempted. -/
structure PhotoFile where
  path : String
  onDisk : Bool
  upload : UploadResult
deriving Repr, DecidableEq

/-- One aggregate `/feed` post request: the attached media ids and the
caption message. -/
structure FeedCall where
  mediaIds : List String
  message : String
deriving Repr, DecidableEq

/-- The staging loop of `post_photos_to_fb` (main.py lines 136-153): photos
whose file is missing are skipped without an upload; uploads that fail or
return no id are skipped; the ids of successfully staged photos are
collected in order. -/
def stageMedia : List PhotoFile → List String
  | [] => []
  | p :: rest =>
    if p.onDisk then
      match p.upload with
      | UploadResult.staged i => i :: stageMedia rest
      | _ => stageMedia rest
    else stageMedia rest

/-- `post_photos_to_fb` (main.py lines 131-169): with no page token the call
fails immediately; otherwise each photo is staged individually, and if no
photo staged the call fails with no `/feed` request, else exactly one
aggregate `/feed` post is made attaching all staged ids plus the caption,
and its status decides the result.  Returns the boolean result paired with
the list of `/feed` requests made. -/
def post_photos_to_fb (token : Option String) (photos : List PhotoFile)
    (caption : String) (feedOk : Bool) : Bool × List FeedCall :=
  match token with
  | none => (false, [])
  | some _ =>
    let ids := stageMedia photos
    if ids = [] then (false, [])
    else (feedOk, [⟨ids, caption⟩])

/-! ## Orchestrator: `fetch_and_post_tweets` item loop (main.py lines 303-380) -/

/-- Outcome of one media HTTP download (`session.get` + `raise_for_status`):
success, or a raised exception. -/
inductive DlResult where
  | ok
  | err
deriving Repr, DecidableEq

/-- The oracle for all external effects of one item's iteration: the
translation attempt outcomes, the video download outcome, the per-index
image download outcomes, the boolean results of the three publish helpers,
and the timestamp `datetime.now()` would format. -/
structure ItemEnv where
  translateOutcomes : List AttemptOutcome
  videoDl : DlResult
  imageDls : List DlResult
  videoPublish : Bool
  photosPublish : Bool
  textPublish : Bool
  now : String
deriving Repr

/-- One observable external call of the item loop. -/
inductive Event where
  | translateCall (text : String)
  | videoDownload (url : String)
  | imageDownload (url : String)
  | publishVideo (path : String) (caption : String)
  | publishPhotos (paths : List String) (caption : String)
  | publishText (caption : String)
  | deleteFile (path : String)
deriving Repr, DecidableEq

/-- Terminal state of one item's iteration.  `aborted` marks an uncaught
exception (the `try` at main.py line 318 has a `finally` but no `except`,
so the exception propagates out of `fetch_and_post_tweets` after cleanup). -/
inductive ItemStatus where
  | skippedDuplicate
  | skippedTranslation
  | posted
  | failed
  | aborted
deriving Repr, DecidableEq

/-- Result of one item's iteration: the ordered call trace, the terminal
status, and the ledger entry staged on success. -/
structure ItemResult where
  events : List Event
  status : ItemStatus
  entry : Option Entry
deriving Repr, DecidableEq

/-- Local video path `temp_{id}.mp4` (main.py line 321). -/
def tempVideoPath (t : Tweet) : String := "temp_" ++ t.id ++ ".mp4"

/-- Local image path `temp_{id}_{j}.jpg` (main.py line 332). -/
def tempImgPath (t : Tweet) (j : Nat) : String :=
  "temp_" ++ t.id ++ "_" ++ toString j ++ ".jpg"

/-- The image download loop (main.py lines 330-339): every URL is attempted
(one download event each); a failure is caught and logged, a success appends
the local path to `img_paths`.  `j` is the absolute index of the first URL
in `urls`. -/
def downloadImagesGo (t : Tweet) (dls : List DlResult) :
    List String → Nat → List Event × List String
  | [], _ => ([], [])
  | url :: rest, j =>
    let r := downloadImagesGo t dls rest (j + 1)
    match dls.getD j DlResult.err with
    | DlResult.ok => (Event.imageDownload url :: r.1, tempImgPath t j :: r.2)
    | DlResult.err => (Event.imageDownload url :: r.1, r.2)

/-- The ledger entry built on a successful publish (main.py lines 351-360). -/
def mkEntry (t : Tweet) (translated : String) (now : String) : Entry :=
  { id := t.id, tweet_url := t.tweet_url, original_text := t.raw_text,
    translated_caption := translated, images := t.images, video := t.video,
    fb_status := "Posted", date_posted := now }

/-- One iteration of the item loop of `fetch_and_post_tweets`
(main.py lines 303-380):
* an id already in `posted_ids` is skipped before any call;
* a failed or empty translation skips the item after the translation call;
* a video item downloads the video — a download error propagates (status
  `aborted`; the file was not yet created, so the `finally` block deletes
  nothing) — then calls `post_video_to_fb` and deletes the file in
  `finally`; there is no text fallback in this branch;
* a photo item attempts every image download, then calls
  `post_photos_to_fb` on the downloaded files (deleting them in `finally`),
  or falls back to `post_text_only_to_fb` when zero images downloaded;
* an item with no media calls `post_text_only_to_fb`;
* on success the staged ledger entry is produced. -/
def processTweet (posted : List String) (t : Tweet) (env : ItemEnv) : ItemResult :=
  if t.id ∈ posted then ⟨[], ItemStatus.skippedDuplicate, none⟩
  else
    let translated := translateResult t.raw_text env.translateOutcomes
    if translated = "" ∨ translated = "Translation failed" then
      ⟨[Event.translateCall t.raw_text], ItemStatus.skippedTranslation, none⟩
    else
      match t.video with
      | some vurl =>
        match env.videoDl with
        | DlResult.err =>
          ⟨[Event.translateCall t.raw_text, Event.videoDownload vurl],
            ItemStatus.aborted, none⟩
        | DlResult.ok =>
          let evs := [Event.translateCall t.raw_text, Event.videoDownload vurl,
            Event.publishVideo (tempVideoPath t) translated,
            Event.deleteFile (tempVideoPath t)]
          if env.videoPublish then
            ⟨evs, ItemStatus.posted, some (mkEntry t translated env.now)⟩
          else ⟨evs, ItemStatus.failed, none⟩
      | none =>
        if t.images = [] then
          let evs := [Event.translateCall t.raw_text, Event.publishText translated]
          if env.textPublish then
            ⟨evs, ItemStatus.posted, some (mkEntry t translated env.now)⟩
          else ⟨evs, ItemStatus.failed, none⟩
        else
          let dl := downloadImagesGo t env.imageDls t.images 0
          if dl.2 = [] then
            let evs := Event.translateCall t.raw_text :: dl.1 ++
              [Event.publishText translated]
            if env.textPublish then
              ⟨evs, ItemStatus.posted, some (mkEntry t translated env.now)⟩
            else ⟨evs, ItemStatus.failed, none⟩
          else
            let evs := Event.translateCall t.raw_text :: dl.1 ++
              [Event.publishPhotos dl.2 translated] ++ dl.2.map Event.deleteFile
            if env.photosPublish then
              ⟨evs, ItemStatus.posted, some (mkEntry t translated env.now)⟩
            else ⟨evs, ItemStatus.failed, none⟩

/-- Result of the whole item loop: accumulated call trace, the in-memory
`results` list, and whether an uncaught exception terminated the run (in
which case `log_result` is never reached). -/
structure RunResult where
  events : List Event
  entries : List Entry
  aborted : Bool
deriving Repr, DecidableEq

/-- The item loop of `fetch_and_post_tweets` over a batch of fetched items
with their effect oracles.  `posted` is the id set loaded once at run start
and never updated during the run (main.py line 294).  An aborted item stops
the loop: the exception propagates out of the function. -/
def runTweets (posted : List String) : List (Tweet × ItemEnv) → RunResult
  | [] => ⟨[], [], false⟩
  | (t, env) :: rest =>
    let r := processTweet posted t env
    if r.status = ItemStatus.aborted then ⟨r.events, r.entry.toList, true⟩
    else
      let rr := runTweets posted rest
      ⟨r.events ++ rr.events, r.entry.toList ++ rr.entries, rr.aborted⟩

/-- A whole run at the ledger level (main.py lines 294, 382-386): load the
posted-id set from the existing ledger, run the item loop, and call
`log_result` only when the loop completed and produced at least one entry. -/
def runLedger (existing : List Entry) (batch : List (Tweet × ItemEnv)) :
    List Entry :=
  let r := runTweets (load_posted_ids existing) batch
  if r.aborted then existing
  else if r.entries = [] then existing
  else log_result existing r.entries

/-! ## Trace observers used by the claims -/

/-- Whether an event is a `post_text_only_to_fb` call. -/
def isTextPublish : Event → Bool
  | Event.publishText _ => true
  | _ => false

/-- Whether any text-only publish call occurs in a trace. -/
def hasTextPublish (evs : List Event) : Bool := evs.any isTextPublish

/-- Whether an event is a local-file deletion. -/
def isDelete : Event → Bool
  | Event.deleteFile _ => true
  | _ => false

/-- Number of `os.remove` calls in a trace. -/
def deleteCount (evs : List Event) : Nat := evs.countP (fun e => isDelete e)

/-- Whether a translation attempt outcome is a failure (a raised error, or a
response whose stripped text is empty). -/
def attemptFails : AttemptOutcome → Bool
  | AttemptOutcome.raise => true
  | AttemptOutcome.ret s => pyStrip s = ""

/-- Number of image downloads that succeed for the URL list starting at
absolute index `j`. -/
def countImgOk (dls : List DlResult) : List String → Nat → Nat
  | [], _ => 0
  | _ :: rest, j =>
    (if dls.getD j DlResult.err = DlResult.ok then 1 else 0) + countImgOk dls rest (j + 1)

/-- The media id produced by a staging upload, when it succeeded. -/
def stagedId : UploadResult → Option String
  | UploadResult.staged i => some i
  | _ => none

/-! ## Concrete inputs used by counterexamples and witnesses -/

/-- A video-carrying item. -/
def cexVideoTweet : Tweet :=
  { id := "101", raw_text := "hello world", images := [],
    video := some "https://video.example/v.mp4",
    tweet_url := "https://x.com/u/101" }

/-- Effects for `cexVideoTweet`: translation succeeds, the video downloads,
the video publish fails, and a text publish would succeed. -/
def cexVideoFailEnv : ItemEnv :=
  { translateOutcomes := [AttemptOutcome.ret "Hai dunia"],
    videoDl := DlResult.ok, imageDls := [], videoPublish := false,
    photosPublish := true, textPublish := true, now := "2026-01-01 00:00:00" }

/-- Effects for `cexVideoTweet`: translation succeeds but the video download
raises. -/
def cexVideoDlErrEnv : ItemEnv :=
  { translateOutcomes := [AttemptOutcome.ret "Hai dunia"],
    videoDl := DlResult.err, imageDls := [], videoPublish := true,
    photosPublish := true, textPublish := true, now := "2026-01-01 00:00:00" }

/-- A media-free item. -/
def cexTextTweet : Tweet :=
  { id := "202", raw_text := "good news", images := [], video := none,
    tweet_url := "https://x.com/u/202" }

/-- Effects for `cexTextTweet`: translation and the text publish succeed. -/
def cexTextEnv : ItemEnv :=
  { translateOutcomes := [AttemptOutcome.ret "Berita baik"],
    videoDl := DlResult.ok, imageDls := [], videoPublish := true,
    photosPublish := true, textPublish := true, now := "2026-01-01 00:00:00" }

/-- A two-photo item. -/
def cexImgTweet : Tweet :=
  { id := "303", raw_text := "see pics",
    images := ["https://img.example/a.jpg", "https://img.example/b.jpg"],
    video := none, tweet_url := "https://x.com/u/303" }

/-- Effects for `cexImgTweet`: translation succeeds, both image downloads
fail, and a text publish would succeed. -/
def cexImgDlFailEnv : ItemEnv :=
  { translateOutcomes := [AttemptOutcome.ret "Lihat gambar"],
    videoDl := DlResult.ok, imageDls := [DlResult.err, DlResult.err],
    videoPublish := true, photosPublish := true, textPublish := true,
    now := "2026-01-01 00:00:00" }

/-- Three translation attempts that all return an empty text aggregate. -/
def allEmptyOutcomes : List AttemptOutcome :=
  [AttemptOutcome.ret "", AttemptOutcome.ret "", AttemptOutcome.ret ""]

/-- Three translation attempts that all raise. -/
def allRaiseOutcomes : List AttemptOutcome :=
  [AttemptOutcome.raise, AttemptOutcome.raise, AttemptOutcome.raise]

/-- Three photo files: one stages successfully, one is missing on disk, one
fails its upload. -/
def photosEx : List PhotoFile :=
  [⟨"temp_7_0.jpg", true, UploadResult.staged "900"⟩,
   ⟨"temp_7_1.jpg", false, UploadResult.staged "901"⟩,
   ⟨"temp_7_2.jpg", true, UploadResult.httpFail⟩]

/-- The number of local media artifacts one item's iteration writes to disk:
one video file when the item has a video and its download succeeds, or one
image file per successful image download; nothing when the item is skipped
before its media step. -/
def numAcquired (posted : List String) (t : Tweet) (env : ItemEnv) : Nat :=
  if t.id ∈ posted then 0
  else
    let translated := translateResult t.raw_text env.translateOutcomes
    if translated = "" ∨ translated = "Translation failed" then 0
    else
      match t.video with
      | some _ => if env.videoDl = DlResult.ok then 1 else 0
      | none => countImgOk env.imageDls t.images 0

/-! ## Helper lemmas -/

/-- The image download loop emits no deletion events. -/
theorem downloadImagesGo_no_delete (t : Tweet) (dls : List DlResult) :
    ∀ (urls : List String) (j : Nat),
      ((downloadImagesGo t dls urls j).1).countP (fun e => isDelete e) = 0 := by
  intro urls
  induction urls with
  | nil => intro j; simp [downloadImagesGo]
  | cons url rest ih =>
    intro j
    simp only [downloadImagesGo]
    cases dls.getD j DlResult.err <;>
      · rw [List.countP_cons, ih (j + 1)]
        simp [isDelete]

/-- The image download loop emits no text-publish events. -/
theorem downloadImagesGo_no_text (t : Tweet) (dls : List DlResult) :
    ∀ (urls : List String) (j : Nat),
      ((downloadImagesGo t dls urls j).1).any isTextPublish = false := by
  intro urls
  induction urls with
  | nil => intro j; simp [downloadImagesGo]
  | cons url rest ih =>
    intro j
    simp only [downloadImagesGo]
    cases dls.getD j DlResult.err <;>
      simp [isTextPublish, ih (j + 1)]

/-- The image download loop collects exactly one local path per successful
download. -/
theorem downloadImagesGo_length (t : Tweet) (dls : List DlResult) :
    ∀ (urls : List String) (j : Nat),
      ((downloadImagesGo t dls urls j).2).length = countImgOk dls urls j := by
  intro urls
  induction urls with
  | nil => intro j; simp [downloadImagesGo, countImgOk]
  | cons url rest ih =>
    intro j
    simp only [downloadImagesGo, countImgOk]
    cases h : dls.getD j DlResult.err <;> simp [h, ih (j + 1), Nat.add_comm]

/-- Deleting a list of files produces one deletion event per file. -/
theorem deleteCount_map (paths : List String) :
    (paths.map Event.deleteFile).countP (fun e => isDelete e) = paths.length := by
  induction paths with
  | nil => simp
  | cons p rest ih => simp [List.countP_cons, isDelete, ih]

/-- Only the video-download-error branch of the item loop ends in the
`aborted` status. -/
theorem processTweet_not_aborted (posted : List String) (t : Tweet)
    (env : ItemEnv) (h : t.video = none ∨ env.videoDl = DlResult.ok) :
    (processTweet posted t env).status ≠ ItemStatus.aborted := by
  simp only [processTweet]
  rcases h with h | h <;> simp only [h] <;> (repeat' split) <;> simp_all

/-! ## Claims -/

/-- C1: an item whose id is already in the ledger loaded at run start is
skipped before any call — no translation call, no media download, no publish
call, no staged ledger entry — and a run in which every fetched item's id is
already present makes no calls, stages no entries, and leaves the ledger
file unchanged. -/
theorem duplicate_skip_idempotence :
    (∀ (posted : List String) (t : Tweet) (env : ItemEnv), t.id ∈ posted →
      processTweet posted t env = ⟨[], ItemStatus.skippedDuplicate, none⟩) ∧
    (∀ (posted : List String) (batch : List (Tweet × ItemEnv)),
      (∀ p ∈ batch, (Prod.fst p).id ∈ posted) →
      runTweets posted batch = ⟨[], [], false⟩) ∧
    (∀ (existing : List Entry) (batch : List (Tweet × ItemEnv)),
      (∀ p ∈ batch, (Prod.fst p).id ∈ load_posted_ids existing) →
      runLedger existing batch = existing) := by
  have hitem : ∀ (posted : List String) (t : Tweet) (env : ItemEnv),
      t.id ∈ posted →
      processTweet posted t env = ⟨[], ItemStatus.skippedDuplicate, none⟩ := by
    intro posted t env h
    simp [processTweet, h]
  have hrun : ∀ (posted : List String) (batch : List (Tweet × ItemEnv)),
      (∀ p ∈ batch, (Prod.fst p).id ∈ posted) →
      runTweets posted batch = ⟨[], [], false⟩ := by
    intro posted batch
    induction batch with
    | nil => intro _; rfl
    | cons p rest ih =>
      intro h
      obtain ⟨t, env⟩ := p
      have ht : t.id ∈ posted := h (t, env) (List.mem_cons_self _ _)
      have hrest := ih (fun q hq => h q (List.mem_cons_of_mem _ hq))
      simp [runTweets, hitem posted t env ht, hrest]
  refine ⟨hitem, hrun, ?_⟩
  intro existing batch h
  simp [runLedger, hrun (load_posted_ids existing) batch h]

/-- C1 witness: a batch whose only item's id is already in `posted`. -/
theorem duplicate_skip_idempotence_witness :
    processTweet ["202"] cexTextTweet cexTextEnv =
      ⟨[], ItemStatus.skippedDuplicate, none⟩ ∧
    runTweets ["202"] [(cexTextTweet, cexTextEnv)] = ⟨[], [], false⟩ :=
  ⟨duplicate_skip_idempotence.1 ["202"] cexTextTweet cexTextEnv (by decide),
   duplicate_skip_idempotence.2.1 ["202"] [(cexTextTweet, cexTextEnv)]
     (by intro p hp; simp at hp; rw [hp]; decide)⟩

/-- C6: the ledger after a run is the ledger before the run with zero or
more entries appended — its id set is a superset of the old one, and every
pre-existing entry is unchanged at its position. -/
theorem ledger_append_only :
    ∀ (existing : List Entry) (batch : List (Tweet × ItemEnv)),
      ∃ new_entries, runLedger existing batch = existing ++ new_entries ∧
        (runLedger existing batch).take existing.length = existing := by
  intro existing batch
  unfold runLedger
  by_cases ha : (runTweets (load_posted_ids existing) batch).aborted = true
  · exact ⟨[], by simp [ha], by simp [ha, List.take_left]⟩
  · by_cases he : (runTweets (load_posted_ids existing) batch).entries = []
    · exact ⟨[], by simp [ha, he], by simp [ha, he, List.take_left]⟩
    · refine ⟨(runTweets (load_posted_ids existing) batch).entries, ?_, ?_⟩
      · simp [ha, he, log_result]
      · simp [ha, he, log_result, List.take_left]

/-- C2 counterexample: a video item whose video publish fails while a text
publish would succeed — yet no text-only publish call occurs and the item
does not end in the posted state, so the text attempt neither happens nor
determines the final status. -/
theorem video_fallback_cex :
    ¬ (hasTextPublish (processTweet [] cexVideoTweet cexVideoFailEnv).events = true ∧
        ((processTweet [] cexVideoTweet cexVideoFailEnv).status = ItemStatus.posted ↔
          cexVideoFailEnv.textPublish = true)) := by decide

/-- C2 amended: for an item with video media (translation having succeeded),
if the video publish call fails the item ends in the failed state with no
text-only publish attempted; if the video download fails, the raised error
propagates (status `aborted`), again with no text-only publish. -/
theorem video_fail_behavior (posted : List String) (t : Tweet) (env : ItemEnv)
    (u : String) (hid : t.id ∉ posted) (hv : t.video = some u)
    (h1 : translateResult t.raw_text env.translateOutcomes ≠ "")
    (h2 : translateResult t.raw_text env.translateOutcomes ≠ "Translation failed") :
    (env.videoDl = DlResult.ok → env.videoPublish = false →
      (processTweet posted t env).status = ItemStatus.failed ∧
      hasTextPublish (processTweet posted t env).events = false) ∧
    (env.videoDl = DlResult.err →
      (processTweet posted t env).status = ItemStatus.aborted ∧
      hasTextPublish (processTweet posted t env).events = false) := by
  constructor
  · intro hdl hpub
    simp [processTweet, hid, h1, h2, hv, hdl, hpub, hasTextPublish, isTextPublish]
  · intro hdl
    simp [processTweet, hid, h1, h2, hv, hdl, hasTextPublish, isTextPublish]

/-- C2 witness: the amended behavior at the concrete failing-publish input. -/
theorem video_fail_behavior_witness :
    (processTweet [] cexVideoTweet cexVideoFailEnv).status = ItemStatus.failed ∧
    hasTextPublish (processTweet [] cexVideoTweet cexVideoFailEnv).events = false :=
  (video_fail_behavior [] cexVideoTweet cexVideoFailEnv "https://video.example/v.mp4"
    (by decide) rfl (by decide) (by decide)).1 rfl rfl

/-- C3 counterexample: a batch of two items where the first item's video
download raises.  The run aborts: the second item — which on its own would
have been published — is never even translated, so a per-item media download
failure is not absorbed within its item's iteration. -/
theorem error_isolation_cex :
    (runTweets [] [(cexVideoTweet, cexVideoDlErrEnv), (cexTextTweet, cexTextEnv)]).aborted
        = true ∧
    Event.translateCall "good news" ∉
      (runTweets [] [(cexVideoTweet, cexVideoDlErrEnv), (cexTextTweet, cexTextEnv)]).events ∧
    (runTweets [] [(cexTextTweet, cexTextEnv)]).entries ≠ [] := by decide

/-- C3 amended: translation failures, image download failures, and publish
failures are absorbed within the item's iteration and the loop always
continues to the remaining items; but a video download failure raises out of
the loop (the `try` has no `except`), terminating the run so that the
remaining items are not processed and nothing is logged. -/
theorem per_item_error_isolation (posted : List String) (t : Tweet)
    (env : ItemEnv) (rest : List (Tweet × ItemEnv)) :
    (t.video = none ∨ env.videoDl = DlResult.ok →
      (processTweet posted t env).status ≠ ItemStatus.aborted ∧
      runTweets posted ((t, env) :: rest) =
        ⟨(processTweet posted t env).events ++ (runTweets posted rest).events,
          (processTweet posted t env).entry.toList ++ (runTweets posted rest).entries,
          (runTweets posted rest).aborted⟩) ∧
    (∀ u : String, t.id ∉ posted →
      translateResult t.raw_text env.translateOutcomes ≠ "" →
      translateResult t.raw_text env.translateOutcomes ≠ "Translation failed" →
      t.video = some u → env.videoDl = DlResult.err →
      runTweets posted ((t, env) :: rest) =
        ⟨[Event.translateCall t.raw_text, Event.videoDownload u], [], true⟩) := by
  constructor
  · intro h
    have hna := processTweet_not_aborted posted t env h
    refine ⟨hna, ?_⟩
    simp [runTweets, hna]
  · intro u hid h1 h2 hv hdl
    have hpt : processTweet posted t env =
        ⟨[Event.translateCall t.raw_text, Event.videoDownload u],
          ItemStatus.aborted, none⟩ := by
      simp [processTweet, hid, h1, h2, hv, hdl]
    simp [runTweets, hpt]

/-- C3 witness: the amended abort behavior at the concrete two-item batch. -/
theorem per_item_error_isolation_witness :
    runTweets [] [(cexVideoTweet, cexVideoDlErrEnv), (cexTextTweet, cexTextEnv)] =
      ⟨[Event.translateCall "hello world",
        Event.videoDownload "https://video.example/v.mp4"], [], true⟩ :=
  (per_item_error_isolation [] cexVideoTweet cexVideoDlErrEnv
      [(cexTextTweet, cexTextEnv)]).2 "https://video.example/v.mp4"
    (by decide) (by decide) (by decide) rfl rfl

/-- C4 counterexample: when every attempt fails by returning an empty text
aggregate, exactly 3 attempts are made and the failure marker is returned —
but no sleep at all occurs (`time.sleep` sits only in the `except` branch),
so there is no strictly increasing delay between the consecutive attempts. -/
theorem translate_retry_cex :
    attemptFails (allEmptyOutcomes.getD 0 AttemptOutcome.raise) = true ∧
    attemptFails (allEmptyOutcomes.getD 1 AttemptOutcome.raise) = true ∧
    attemptFails (allEmptyOutcomes.getD 2 AttemptOutcome.raise) = true ∧
    translate_to_malay "hello" allEmptyOutcomes = ⟨"Translation failed", 3, []⟩ ∧
    ¬ 2 ≤ (translate_to_malay "hello" allEmptyOutcomes).sleeps.length := by decide

/-- C4 amended: a translation whose three attempts all fail makes exactly 3
attempts and then returns the failure marker, with no further attempt; the
sleeps that do occur are strictly increasing, and when every failure is a
raised error the delays are exactly `1.5^1, 1.5^2, 1.5^3` — but an attempt
that fails by returning empty output retries immediately with no delay. -/
theorem translate_retry_bound (text : String) (outcomes : List AttemptOutcome)
    (ht : pyStrip text ≠ "")
    (hfail : ∀ i, i < 3 → attemptFails (outcomes.getD i AttemptOutcome.raise) = true) :
    (translate_to_malay text outcomes).attempts = 3 ∧
    (translate_to_malay text outcomes).result = "Translation failed" ∧
    (translate_to_malay text outcomes).sleeps.Chain' (· < ·) ∧
    (outcomes.getD 0 AttemptOutcome.raise = AttemptOutcome.raise →
      outcomes.getD 1 AttemptOutcome.raise = AttemptOutcome.raise →
      outcomes.getD 2 AttemptOutcome.raise = AttemptOutcome.raise →
      (translate_to_malay text outcomes).sleeps =
        [(3 / 2 : ℚ), (3 / 2 : ℚ) ^ 2, (3 / 2 : ℚ) ^ 3]) := by
  have h0 := hfail 0 (by norm_num)
  have h1 := hfail 1 (by norm_num)
  have h2 := hfail 2 (by norm_num)
  rcases e0 : outcomes.getD 0 AttemptOutcome.raise with _ | s0 <;>
    rcases e1 : outcomes.getD 1 AttemptOutcome.raise with _ | s1 <;>
      rcases e2 : outcomes.getD 2 AttemptOutcome.raise with _ | s2 <;>
        rw [e0] at h0 <;> rw [e1] at h1 <;> rw [e2] at h2 <;>
          simp only [attemptFails, decide_eq_true_eq] at h0 h1 h2 <;>
            rw [List.getD_eq_getElem?_getD] at e0 e1 e2 <;>
              simp [translate_to_malay, translateGo, ht, e0, e1, e2, h0, h1, h2,
                List.chain'_cons] <;>
                norm_num

/-- C4 witness: the amended behavior when all three attempts raise. -/
theorem translate_retry_bound_witness :
    (translate_to_malay "hello" allRaiseOutcomes).attempts = 3 ∧
    (translate_to_malay "hello" allRaiseOutcomes).result = "Translation failed" ∧
    (translate_to_malay "hello" allRaiseOutcomes).sleeps =
      [(3 / 2 : ℚ), (3 / 2 : ℚ) ^ 2, (3 / 2 : ℚ) ^ 3] := by
  have h := translate_retry_bound "hello" allRaiseOutcomes (by decide) (by decide)
  exact ⟨h.1, h.2.1, h.2.2.2 rfl rfl rfl⟩

/-- The retry loop makes at least one network attempt whenever it is
entered with at least one attempt of fuel. -/
theorem translateGo_attempts_pos (outcomes : List AttemptOutcome) (b : ℚ)
    (i fuel : Nat) : 1 ≤ (translateGo outcomes b i (fuel + 1)).attempts := by
  simp only [translateGo]
  rcases outcomes.getD i AttemptOutcome.raise with _ | s
  · simp
  · by_cases h : pyStrip s = "" <;> simp [h]

/-- C5 counterexample: the input `"@abc"` is non-empty before preprocessing
but `_clean_text` reduces it to the empty string — yet `translate_to_malay`
does not return the empty result immediately: it makes a network attempt
(the guard at main.py line 68 tests the raw text, not the cleaned text). -/
theorem empty_after_clean_cex :
    clean_text "@abc" = "" ∧
    ¬ ((translate_to_malay "@abc" [AttemptOutcome.ret "Hai"]).attempts = 0 ∧
        (translate_to_malay "@abc" [AttemptOutcome.ret "Hai"]).result = "") := by
  decide

/-- C5 amended: only an input that is empty or whitespace-only **before**
preprocessing returns the empty result immediately with no network attempt;
any input whose raw text is non-empty after stripping triggers at least one
network attempt, even when noise-stripping would empty it. -/
theorem translate_empty_guard (text : String) (outcomes : List AttemptOutcome) :
    (pyStrip text = "" → translate_to_malay text outcomes = ⟨"", 0, []⟩) ∧
    (pyStrip text ≠ "" → 1 ≤ (translate_to_malay text outcomes).attempts) := by
  constructor
  · intro h
    simp [translate_to_malay, h]
  · intro h
    simp only [translate_to_malay, if_neg h]
    exact translateGo_attempts_pos outcomes (3 / 2 : ℚ) 0 2

/-- C5 witness: the guard at a whitespace-only input and at an input that
cleans to empty but is non-empty raw. -/
theorem translate_empty_guard_witness :
    translate_to_malay " " [] = ⟨"", 0, []⟩ ∧
    1 ≤ (translate_to_malay "@abc" [AttemptOutcome.ret "Hai"]).attempts :=
  ⟨(translate_empty_guard " " []).1 (by decide),
    (translate_empty_guard "@abc" [AttemptOutcome.ret "Hai"]).2 (by decide)⟩

/-- C7: with a page token, `post_photos_to_fb` stages each photo
individually — skipping photos whose file is missing or whose staging
upload fails or returns no id — fails with no `/feed` request when zero
photos staged, and otherwise makes exactly one aggregate `/feed` post
attaching all staged media ids plus the caption, whose status is the
result. -/
theorem photos_staging_behavior (tok : String) (photos : List PhotoFile)
    (caption : String) (feedOk : Bool) :
    stageMedia photos =
      photos.filterMap (fun p => if p.onDisk then stagedId p.upload else none) ∧
    (stageMedia photos = [] →
      post_photos_to_fb (some tok) photos caption feedOk = (false, [])) ∧
    (stageMedia photos ≠ [] →
      post_photos_to_fb (some tok) photos caption feedOk =
        (feedOk, [⟨stageMedia photos, caption⟩])) := by
  refine ⟨?_, ?_, ?_⟩
  · induction photos with
    | nil => rfl
    | cons p rest ih =>
      rcases p with ⟨path, onDisk, upload⟩
      cases onDisk <;> cases upload <;> simp [stageMedia, stagedId, ih]
  · intro h
    simp [post_photos_to_fb, h]
  · intro h
    simp [post_photos_to_fb, h]

/-- C7 witness: one of three photos stages; the aggregate post carries
exactly that photo and the caption. -/
theorem photos_staging_behavior_witness :
    post_photos_to_fb (some "tok") photosEx "cap" true =
      (true, [⟨["900"], "cap"⟩]) :=
  (photos_staging_behavior "tok" photosEx "cap" true).2.2 (by decide)

/-- C8: on the photos path (translation having succeeded), if zero photos
download the orchestrator falls back directly to a text-only publish whose
result determines the item's status; but if at least one photo downloaded
and `post_photos_to_fb` returns failure, no text-only publish is attempted
and the item ends in the failed state. -/
theorem photos_fallback_asymmetry (posted : List String) (t : Tweet)
    (env : ItemEnv) (hid : t.id ∉ posted) (hv : t.video = none)
    (him : t.images ≠ [])
    (h1 : translateResult t.raw_text env.translateOutcomes ≠ "")
    (h2 : translateResult t.raw_text env.translateOutcomes ≠ "Translation failed") :
    ((downloadImagesGo t env.imageDls t.images 0).2 = [] →
      hasTextPublish (processTweet posted t env).events = true ∧
      ((processTweet posted t env).status = ItemStatus.posted ↔
        env.textPublish = true)) ∧
    ((downloadImagesGo t env.imageDls t.images 0).2 ≠ [] →
      env.photosPublish = false →
      (processTweet posted t env).status = ItemStatus.failed ∧
      hasTextPublish (processTweet posted t env).events = false) := by
  constructor
  · intro hdl
    constructor
    · by_cases hp : env.textPublish <;>
        simp [processTweet, hid, h1, h2, hv, him, hdl, hp, hasTextPublish,
          isTextPublish, List.any_append]
    · by_cases hp : env.textPublish <;>
        simp [processTweet, hid, h1, h2, hv, him, hdl, hp]
  · intro hdl hp
    have hnotext := downloadImagesGo_no_text t env.imageDls t.images 0
    constructor
    · simp [processTweet, hid, h1, h2, hv, him, hdl, hp]
    · simp only [processTweet, hid, h1, h2, hv, him, hdl, hp]
      simp [hid, h1, h2, him, hdl, hp, hasTextPublish, isTextPublish,
        List.any_append, hnotext]

/-- C8 witness: both photo downloads fail, so the item falls back to a
text-only publish and its success posts the item. -/
theorem photos_fallback_asymmetry_witness :
    hasTextPublish (processTweet [] cexImgTweet cexImgDlFailEnv).events = true ∧
    ((processTweet [] cexImgTweet cexImgDlFailEnv).status = ItemStatus.posted ↔
      cexImgDlFailEnv.textPublish = true) :=
  (photos_fallback_asymmetry [] cexImgTweet cexImgDlFailEnv (by decide) rfl
    (by decide) (by decide) (by decide)).1 (by decide)

/-- C9: for every item and every exit path of its iteration — skip,
successful publish, failed publish, or the propagated download error — the
number of `os.remove` calls in the trace equals the number of local media
artifacts the iteration wrote to disk (the downloaded video file, or one
file per successful image download). -/
theorem cleanup_release_count (posted : List String) (t : Tweet)
    (env : ItemEnv) :
    deleteCount (processTweet posted t env).events = numAcquired posted t env := by
  by_cases hid : t.id ∈ posted
  · simp [processTweet, numAcquired, hid, deleteCount]
  · by_cases htr : translateResult t.raw_text env.translateOutcomes = "" ∨
        translateResult t.raw_text env.translateOutcomes = "Translation failed"
    · simp [processTweet, numAcquired, hid, htr, deleteCount, isDelete]
    · rcases hv : t.video with _ | u
      · by_cases him : t.images = []
        · by_cases hp : env.textPublish <;>
            simp [processTweet, numAcquired, hid, htr, hv, him, hp,
              deleteCount, isDelete, countImgOk]
        · have hdel := downloadImagesGo_no_delete t env.imageDls t.images 0
          have hlen := downloadImagesGo_length t env.imageDls t.images 0
          have hacq : numAcquired posted t env = countImgOk env.imageDls t.images 0 := by
            simp [numAcquired, hid, htr, hv]
          by_cases hdl : (downloadImagesGo t env.imageDls t.images 0).2 = []
          · have hcnt : countImgOk env.imageDls t.images 0 = 0 := by
              rw [← hlen, hdl]; rfl
            have hev : (processTweet posted t env).events =
                Event.translateCall t.raw_text ::
                  ((downloadImagesGo t env.imageDls t.images 0).1 ++
                    [Event.publishText (translateResult t.raw_text env.translateOutcomes)]) := by
              by_cases hp : env.textPublish <;>
                simp [processTweet, hid, htr, hv, him, hdl, hp]
            rw [hev, hacq, hcnt]
            unfold deleteCount
            rw [List.countP_cons, List.countP_append, hdel]
            simp [isDelete]
          · have hev : (processTweet posted t env).events =
                Event.translateCall t.raw_text ::
                  ((downloadImagesGo t env.imageDls t.images 0).1 ++
                    [Event.publishPhotos (downloadImagesGo t env.imageDls t.images 0).2
                      (translateResult t.raw_text env.translateOutcomes)] ++
                    (downloadImagesGo t env.imageDls t.images 0).2.map Event.deleteFile) := by
              by_cases hp : env.photosPublish <;>
                simp [processTweet, hid, htr, hv, him, hdl, hp]
            rw [hev, hacq, ← hlen]
            unfold deleteCount
            rw [List.countP_cons, List.countP_append, List.countP_append, hdel,
              deleteCount_map]
            simp [isDelete]
      · cases hdl : env.videoDl
        · by_cases hp : env.videoPublish <;>
            simp [processTweet, numAcquired, hid, htr, hv, hdl, hp,
              deleteCount, isDelete, List.countP_cons]
        · simp [processTweet, numAcquired, hid, htr, hv, hdl,
            deleteCount, isDelete, List.countP_cons]

/-- C10: `posted_ids` is read once at run start and never updated during the
run, so a media-free item whose id is absent from the ledger and that
appears twice in one batch is translated and published twice, and two
ledger entries with the same id are staged. -/
theorem duplicate_in_batch_published_twice (posted : List String) (t : Tweet)
    (env : ItemEnv) (hid : t.id ∉ posted) (hv : t.video = none)
    (him : t.images = [])
    (h1 : translateResult t.raw_text env.translateOutcomes ≠ "")
    (h2 : translateResult t.raw_text env.translateOutcomes ≠ "Translation failed")
    (hp : env.textPublish = true) :
    runTweets posted [(t, env), (t, env)] =
      ⟨[Event.translateCall t.raw_text,
        Event.publishText (translateResult t.raw_text env.translateOutcomes),
        Event.translateCall t.raw_text,
        Event.publishText (translateResult t.raw_text env.translateOutcomes)],
        [mkEntry t (translateResult t.raw_text env.translateOutcomes) env.now,
          mkEntry t (translateResult t.raw_text env.translateOutcomes) env.now],
        false⟩ := by
  have hpt : processTweet posted t env =
      ⟨[Event.translateCall t.raw_text,
        Event.publishText (translateResult t.raw_text env.translateOutcomes)],
        ItemStatus.posted,
        some (mkEntry t (translateResult t.raw_text env.translateOutcomes) env.now)⟩ := by
    simp [processTweet, hid, h1, h2, hv, him, hp]
  simp [runTweets, hpt]

/-- C10 witness: the concrete media-free item published twice in one batch. -/
theorem duplicate_in_batch_published_twice_witness :
    runTweets [] [(cexTextTweet, cexTextEnv), (cexTextTweet, cexTextEnv)] =
      ⟨[Event.translateCall cexTextTweet.raw_text,
        Event.publishText (translateResult cexTextTweet.raw_text cexTextEnv.translateOutcomes),
        Event.translateCall cexTextTweet.raw_text,
        Event.publishText (translateResult cexTextTweet.raw_text cexTextEnv.translateOutcomes)],
        [mkEntry cexTextTweet (translateResult cexTextTweet.raw_text cexTextEnv.translateOutcomes) cexTextEnv.now,
          mkEntry cexTextTweet (translateResult cexTextTweet.raw_text cexTextEnv.translateOutcomes) cexTextEnv.now],
        false⟩ :=
  duplicate_in_batch_published_twice [] cexTextTweet cexTextEnv (by decide) rfl
    rfl (by decide) (by decide) rfl

end FBAutopost
